import Mathlib

/-!
Shallow embedding of the Shopify draft-order ("devis") App Proxy server
(`server.js`): the App Proxy signature verifier (`safeEqual`, `verifyProxy`),
the gid helper (`gidToLegacyId`), the node-to-record mapping
(`mapDraftOrderNode`) and the two route handlers (`GET /devis`,
`GET /devis/:id`).

Strings are Lean `String`s; every JavaScript string operation the code uses
(`split("/")`, `startsWith`, `includes`, `toLowerCase`, `Array.sort`) is
implemented structurally over the underlying character list so that all
definitions evaluate by kernel reduction.

The cryptographic primitives `hmacBase64` and `hmacHex`
(base64/hex-encoded HMAC-SHA256) are not part of this repository; they are
treated as an abstract parameter `hb`/`hh : String → String → String` of the
verifier, and theorems quantify over them.
-/

/- ------------------------- JS string primitives ------------------------- -/

/-- Lexicographic order on character lists by code point, the order
JavaScript's default `Array.prototype.sort` comparator induces on strings
(identical for all basic-multilingual-plane text). -/
def listLexLt : List Char → List Char → Bool
  | [], [] => false
  | [], _ :: _ => true
  | _ :: _, [] => false
  | a :: as, b :: bs =>
    if a.toNat < b.toNat then true
    else if b.toNat < a.toNat then false
    else listLexLt as bs

/-- `a ≤ b` in the JS string sort order. -/
def strLe (a b : String) : Bool := !(listLexLt b.data a.data)

/-- Insert into a `strLe`-sorted list. -/
def insertSorted (a : String) : List String → List String
  | [] => [a]
  | b :: bs => if strLe a b then a :: b :: bs else b :: insertSorted a bs

/-- `Array.prototype.sort()` on strings (stable, default comparator). -/
def sortStrings : List String → List String
  | [] => []
  | a :: as => insertSorted a (sortStrings as)

/-- `s.startsWith(pre)`. -/
def jsStartsWith (s pre : String) : Bool := pre.data.isPrefixOf s.data

/-- `s.includes(pat)`: `pat` occurs as a contiguous substring of `s`. -/
def jsIncludes (s pat : String) : Bool :=
  s.data.tails.any (fun t => pat.data.isPrefixOf t)

/-- `s.toLowerCase()` (ASCII range, all that the code compares). -/
def jsToLower (s : String) : String := ⟨s.data.map Char.toLower⟩

/-- Split a character list at every occurrence of `c`, JS `split` style:
the empty list splits to one empty field. -/
def splitChar (c : Char) : List Char → List (List Char)
  | [] => [[]]
  | x :: xs =>
    let r := splitChar c xs
    if x = c then [] :: r
    else
      match r with
      | [] => [[x]]
      | h :: t => (x :: h) :: t

/-- `s.split("/")`. -/
def jsSplitSlash (s : String) : List String :=
  (splitChar '/' s.data).map (fun l => ⟨l⟩)

/-- `\d`: an ASCII decimal digit. -/
def isDigitCh (c : Char) : Bool := 48 ≤ c.toNat && c.toNat ≤ 57

/-- The regex test `/^\d+$/.test(s)`: non-empty and all digits. -/
def isDigits (s : String) : Bool := !s.data.isEmpty && s.data.all isDigitCh

/-- JS `v || d` for an optional string `v`: the empty string is falsy. -/
def jsOrElse (v : Option String) (d : String) : String :=
  match v with
  | some s => if s = "" then d else s
  | none => d

/- --------------------------- Request model ----------------------------- -/

/-- Lookup in an association list of request headers / query parameters
(`req.headers[k]` / `req.query[k]`; absent key is `undefined`, i.e. `none`).
Express lower-cases header names, so keys are compared verbatim. -/
def qget (q : List (String × String)) (k : String) : Option String :=
  (q.find? (fun p => p.1 == k)).map (fun p => p.2)

/-- The inbound HTTP request as `verifyProxy` and the routes see it:
header map, the raw path+query string `req.originalUrl`, and the parsed
query parameters `req.query`. -/
structure Req where
  headers : List (String × String)
  originalUrl : String
  query : List (String × String)
deriving Repr, DecidableEq

/- ------------------------ Signature verification ------------------------ -/

/-- `safeEqual` from the source: `crypto.timingSafeEqual` on the UTF-8
buffers of `a` and `b`, with any exception (the primitive rejects buffers of
different byte length with a `RangeError`) caught and returned as `false`.
For equal byte lengths the primitive returns whether the two byte buffers
are equal; since UTF-8 encoding is injective, buffer equality coincides with
string equality, which is how the byte comparison is embedded. -/
def safeEqual (a b : String) : Bool :=
  if a.utf8ByteSize = b.utf8ByteSize then a == b else false

/-- `req.headers["x-shopify-proxy-signature"] || req.headers["x-shopify-hmac-sha256"]`:
the first header if present and truthy (non-empty), otherwise the second. -/
def headerSigOf (req : Req) : Option String :=
  match qget req.headers "x-shopify-proxy-signature" with
  | some s => if s = "" then qget req.headers "x-shopify-hmac-sha256" else some s
  | none => qget req.headers "x-shopify-hmac-sha256"

/-- ```/apps${raw1.startsWith("/") ? "" : "/"}${raw1}` ``: the raw URL
re-prefixed with `/apps`, inserting exactly one `/` separator when the raw
path does not already start with one. -/
def appsPrefixed (raw : String) : String :=
  "/apps" ++ (if jsStartsWith raw "/" then "" else "/") ++ raw

/-- The header branch of `verifyProxy` (`if (headerSig) { ... }`):
accepts when the truthy header signature constant-time-equals the
base64 HMAC of the raw URL, or, failing that, of the `/apps`-prefixed URL.
`hb` is the abstract `hmacBase64(secret, message)`. -/
def headerAccepts (hb : String → String → String) (secret : String) (req : Req) : Bool :=
  match headerSigOf req with
  | some h =>
    if h = "" then false
    else safeEqual h (hb secret req.originalUrl)
      || safeEqual h (hb secret (appsPrefixed req.originalUrl))
  | none => false

/-- `const { signature: legacySig, ...rest } = req.query`: the query
parameters with the `signature` key removed. -/
def legacyRest (q : List (String × String)) : List (String × String) :=
  q.filter (fun p => !(p.1 == "signature"))

/-- `Object.keys(rest).sort().map(k => `${k}=${rest[k]}`).join("")`:
keys sorted lexicographically, each rendered `key=value`, concatenated with
no separator. -/
def legacyMessage (rest : List (String × String)) : String :=
  String.join ((sortStrings (rest.map (fun p => p.1))).map
    (fun k => k ++ "=" ++ (qget rest k).getD ""))

/-- The legacy branch of `verifyProxy` (`if (legacySig) { ... }`):
accepts when the truthy `signature` query parameter constant-time-equals the
hex HMAC of the sorted concatenation. `hh` is the abstract
`hmacHex(secret, message)`. -/
def legacyAccepts (hh : String → String → String) (secret : String)
    (q : List (String × String)) : Bool :=
  match qget q "signature" with
  | some s =>
    if s = "" then false
    else safeEqual s (hh secret (legacyMessage (legacyRest q)))
  | none => false

/-- `verifyProxy(req)`: fail closed on an empty shared secret
(`process.env.APP_PROXY_SHARED_SECRET || ""`), then try the header branch,
then the legacy branch, in source order. -/
def verifyProxy (hb hh : String → String → String) (secret : String) (req : Req) : Bool :=
  if secret = "" then false
  else headerAccepts hb secret req || legacyAccepts hh secret req.query

/- ----------------------------- gid helper ------------------------------ -/

/-- `gidToLegacyId(gid)` for a string argument: `null` for the falsy empty
string; if the string starts with `gid://` and its last `/`-separated
segment is all digits, that segment; otherwise, if the whole string is all
digits, the string itself; otherwise `null`. -/
def gidToLegacyId (gid : String) : Option String :=
  if gid = "" then none
  else
    let fromGid : Option String :=
      if jsStartsWith gid "gid://" then
        let last := (jsSplitSlash gid).getLastD ""
        if isDigits last then some last else none
      else none
    match fromGid with
    | some r => some r
    | none => if isDigits gid then some gid else none

/- --------------------------- Upstream model ----------------------------- -/

/-- The ways `adminGraphQL` can throw: a non-2xx upstream HTTP response
(status and body text), a GraphQL-level `errors` array (serialized text),
or missing environment configuration. -/
inductive AdminError where
  | httpError (status : Nat) (body : String)
  | graphqlErrors (txt : String)
  | missingEnv
deriving Repr, DecidableEq

/-- The `e.message` of each `adminGraphQL` failure, as composed in the
source's `throw new Error(...)` calls. -/
def AdminError.message : AdminError → String
  | .httpError s b => "[AdminAPI] HTTP " ++ toString s ++ ": " ++ b
  | .graphqlErrors t => "[AdminAPI] GraphQL errors: " ++ t
  | .missingEnv => "Missing env: SHOP_DOMAIN, ADMIN_API_VERSION, or ADMIN_ACCESS_TOKEN"

/- -------------------------- GraphQL node model -------------------------- -/

/-- `totalPriceSet.presentmentMoney`. -/
structure Money where
  amount : String
  currencyCode : String
deriving Repr, DecidableEq

/-- `totalPriceSet`, whose `presentmentMoney` may itself be null. -/
structure TotalPriceSet where
  presentmentMoney : Option Money
deriving Repr, DecidableEq

/-- A line-item node `{ title quantity variantTitle }`; any field may come
back null. -/
structure LineItemNode where
  title : Option String
  quantity : Option Int
  variantTitle : Option String
deriving Repr, DecidableEq

/-- A line-item edge `{ node { ... } }`. -/
structure LineItemEdge where
  node : LineItemNode
deriving Repr, DecidableEq

/-- `lineItems(first: 50) { edges { ... } }`; `edges` may be absent
(the code guards with `node.lineItems.edges || []`). -/
structure LineItemsConnection where
  edges : Option (List LineItemEdge)
deriving Repr, DecidableEq

/-- An upstream draft-order node as selected by both queries. Every field
may come back null (or be absent when the selection omitted it, e.g.
`lineItems` when items were not requested). -/
structure DraftOrderNode where
  id : Option String
  legacyResourceId : Option String
  name : Option String
  createdAt : Option String
  status : Option String
  invoiceUrl : Option String
  totalPriceSet : Option TotalPriceSet
  lineItems : Option LineItemsConnection
deriving Repr, DecidableEq

/-- The mapped line item `{title, quantity, variantTitle}` produced by
`mapDraftOrderNode`; `variantTitle` is always a string. -/
structure LineItemRecord where
  title : Option String
  quantity : Option Int
  variantTitle : String
deriving Repr, DecidableEq

/-- The simplified quote record returned to the caller. `lineItems = none`
models the field being omitted from the JSON object entirely. -/
structure DraftOrderRecord where
  id : Option String
  legacyResourceId : Option String
  name : Option String
  createdAt : Option String
  status : Option String
  invoiceUrl : Option String
  total : Option String
  lineItems : Option (List LineItemRecord)
deriving Repr, DecidableEq

/-- `li.variantTitle || ""` and friends inside the line-item mapping. -/
def mapLineItem (li : LineItemNode) : LineItemRecord :=
  { title := li.title
    quantity := li.quantity
    variantTitle := jsOrElse li.variantTitle "" }

/-- `mapDraftOrderNode(node, includeItems)`: verbatim field copies, the
`"<amount> <currencyCode>"` total (null when `totalPriceSet?.presentmentMoney`
is falsy), and the spread `...(includeItems && node.lineItems ? {lineItems: ...} : {})`
which adds the `lineItems` key only when the flag is set and the node
carries a truthy line-items connection. -/
def mapDraftOrderNode (node : DraftOrderNode) (includeItems : Bool) : DraftOrderRecord :=
  { id := node.id
    legacyResourceId := node.legacyResourceId
    name := node.name
    createdAt := node.createdAt
    status := node.status
    invoiceUrl := node.invoiceUrl
    total :=
      match node.totalPriceSet with
      | some tps =>
        match tps.presentmentMoney with
        | some m => some (m.amount ++ " " ++ m.currencyCode)
        | none => none
      | none => none
    lineItems :=
      match includeItems, node.lineItems with
      | true, some conn => some ((conn.edges.getD []).map (fun e => mapLineItem e.node))
      | _, _ => none }

/- ----------------------------- Route model ------------------------------ -/

/-- `pageInfo { hasNextPage hasPreviousPage startCursor endCursor }`,
passed through verbatim; `data?.draftOrders?.pageInfo || {}` defaults to the
empty object. -/
structure PageInfo where
  hasNextPage : Option Bool
  hasPreviousPage : Option Bool
  startCursor : Option String
  endCursor : Option String
deriving Repr, DecidableEq

/-- The empty object `{}` used as the pageInfo fallback. -/
def emptyPageInfo : PageInfo := ⟨none, none, none, none⟩

/-- A draft-order edge `{ cursor node { ... } }`. -/
structure DraftOrderEdge where
  cursor : Option String
  node : DraftOrderNode
deriving Repr, DecidableEq

/-- `draftOrders(first: 10, ...)` connection. -/
structure DraftOrdersConnection where
  pageInfo : Option PageInfo
  edges : Option (List DraftOrderEdge)
deriving Repr, DecidableEq

/-- The `data` of the list query. -/
structure ListData where
  draftOrders : Option DraftOrdersConnection
deriving Repr, DecidableEq

/-- The `data` of the single-quote query. -/
structure OneData where
  draftOrder : Option DraftOrderNode
deriving Repr, DecidableEq

/-- A JSON response body: an `{error: code}` object, the list payload
`{quotes, pageInfo}`, or the single payload `{quote}`. -/
inductive RespBody where
  | errJson (code : String)
  | quotesJson (quotes : List DraftOrderRecord) (pageInfo : PageInfo)
  | quoteJson (quote : DraftOrderRecord)
deriving Repr, DecidableEq

/-- An HTTP response: status code and JSON body. -/
structure Response where
  status : Nat
  body : RespBody
deriving Repr, DecidableEq

/-- `String(req.query.include || "").toLowerCase() === "items"`. -/
def includeItemsOf (req : Req) : Bool :=
  jsToLower (jsOrElse (qget req.query "include") "") == "items"

/-- The `GET /devis` handler. The upstream `adminGraphQL` call is modelled
as its outcome `upstream`; the returned `Bool` records whether execution
reached that call. Any thrown upstream error lands in the route's `catch`
as 500 `server_error`. -/
def listDevis (hb hh : String → String → String) (secret : String) (req : Req)
    (upstream : Except AdminError ListData) : Response × Bool :=
  if verifyProxy hb hh secret req = false then
    (⟨401, .errJson "invalid_signature"⟩, false)
  else
    match qget req.query "customer_id" with
    | none => (⟨400, .errJson "missing customer_id"⟩, false)
    | some p =>
      if p = "" then (⟨400, .errJson "missing customer_id"⟩, false)
      else
        match gidToLegacyId p with
        | none => (⟨400, .errJson "bad customer_id"⟩, false)
        | some _legacy =>
          let includeItems := includeItemsOf req
          match upstream with
          | .ok data =>
            let edges := (data.draftOrders.bind (fun c => c.edges)).getD []
            let pageInfo := (data.draftOrders.bind (fun c => c.pageInfo)).getD emptyPageInfo
            (⟨200, .quotesJson (edges.map (fun e => mapDraftOrderNode e.node includeItems)) pageInfo⟩,
             true)
          | .error _ => (⟨500, .errJson "server_error"⟩, true)

/-- The id the `GET /devis/:id` route passes upstream:
`legacy && !rawId.startsWith("gid://") ? `gid://shopify/DraftOrder/${legacy}` : rawId`. -/
def oneQuoteUpstreamId (rawId : String) : String :=
  match gidToLegacyId rawId with
  | some l => if jsStartsWith rawId "gid://" then rawId else "gid://shopify/DraftOrder/" ++ l
  | none => rawId

/-- The `GET /devis/:id` handler. The upstream call is modelled as an oracle
from the looked-up id to the call's outcome. A thrown error whose message
contains `"HTTP 404"` maps to 404 `not_found`; any other throw maps to 500. -/
def getDevisById (hb hh : String → String → String) (secret : String) (req : Req)
    (rawId : String) (upstream : String → Except AdminError OneData) : Response × Bool :=
  if verifyProxy hb hh secret req = false then
    (⟨401, .errJson "invalid_signature"⟩, false)
  else
    let includeItems := includeItemsOf req
    match upstream (oneQuoteUpstreamId rawId) with
    | .ok data =>
      match data.draftOrder with
      | none => (⟨404, .errJson "not_found"⟩, true)
      | some n => (⟨200, .quoteJson (mapDraftOrderNode n includeItems)⟩, true)
    | .error e =>
      if jsIncludes (AdminError.message e) "HTTP 404" then (⟨404, .errJson "not_found"⟩, true)
      else (⟨500, .errJson "server_error"⟩, true)

/- --------------------------- Shared lemmas ------------------------------ -/

/-- `safeEqual` accepts equal strings. -/
theorem safeEqual_self (a : String) : safeEqual a a = true := by
  simp [safeEqual]

/-- `safeEqual` decides string equality. -/
theorem safeEqual_iff {a b : String} : safeEqual a b = true ↔ a = b := by
  unfold safeEqual
  by_cases hl : a.utf8ByteSize = b.utf8ByteSize
  · simp [hl]
  · simp only [if_neg hl]
    constructor
    · intro h; exact absurd h (by simp)
    · intro h; exact absurd (h ▸ rfl) hl

/-- `safeEqual` rejects distinct strings. -/
theorem safeEqual_ne {a b : String} (h : a ≠ b) : safeEqual a b = false := by
  cases hx : safeEqual a b with
  | false => rfl
  | true => exact absurd (safeEqual_iff.mp hx) h

/-- An all-digits string cannot start with `gid://`. -/
theorem digits_not_gid (s : String) (h : isDigits s = true) :
    jsStartsWith s "gid://" = false := by
  unfold jsStartsWith
  cases hd : s.data with
  | nil =>
    unfold isDigits at h
    rw [hd] at h
    simp at h
  | cons c cs =>
    unfold isDigits at h
    rw [hd] at h
    simp only [List.isEmpty_cons, Bool.not_false, Bool.true_and, List.all_cons,
      Bool.and_eq_true] at h
    have hc : c ≠ 'g' := by
      intro he
      subst he
      simp [isDigitCh] at h
    have hbe : ('g' == c) = false := beq_eq_false_iff_ne.mpr (Ne.symm hc)
    show List.isPrefixOf ('g' :: "id://".data) (c :: cs) = false
    simp [List.isPrefixOf, hbe]

/-- `gidToLegacyId` maps a bare numeral to itself. -/
theorem gidToLegacyId_digits (s : String) (h : isDigits s = true) :
    gidToLegacyId s = some s := by
  have hne : s ≠ "" := by
    intro he
    subst he
    simp [isDigits] at h
  simp [gidToLegacyId, hne, digits_not_gid s h, h]

/-- The message of an upstream HTTP 404 error always contains `"HTTP 404"`. -/
theorem http404_message_includes (b : String) :
    jsIncludes (AdminError.message (.httpError 404 b)) "HTTP 404" = true := rfl

/- ------------------------- Concrete fixtures ---------------------------- -/

/-- A concrete stand-in for the abstract `hmacBase64` in evaluations. -/
def cHB (secret msg : String) : String := secret ++ "|" ++ msg

/-- A concrete stand-in for the abstract `hmacHex` in evaluations. -/
def cHH (secret msg : String) : String := secret ++ "#" ++ msg

/-- A request whose proxy-signature header matches the raw URL. -/
def demoReqHeader : Req :=
  ⟨[("x-shopify-proxy-signature", "k|/devis?customer_id=123")],
   "/devis?customer_id=123", [("customer_id", "123")]⟩

/-- A request whose hmac header matches only the `/apps`-prefixed URL. -/
def demoReqApps : Req :=
  ⟨[("x-shopify-hmac-sha256", "k|/apps/devis?customer_id=123")],
   "/devis?customer_id=123", [("customer_id", "123")]⟩

/-- A legacy-style request with a matching hex `signature` parameter. -/
def demoReqLegacy : Req :=
  ⟨[], "/devis?a=1&b=2", [("a", "1"), ("b", "2"), ("signature", "k#a=1b=2")]⟩

/-- A request with no signature header and no legacy parameter. -/
def demoReqEmpty : Req := ⟨[], "/devis", []⟩

/-- A request with a tampered header and a wrong legacy parameter. -/
def demoReqBadSig : Req :=
  ⟨[("x-shopify-proxy-signature", "WRONG")], "/devis", [("signature", "NOPE")]⟩

/-- A correctly signed list request whose customer id is `a/123`. -/
def demoReqSlashId : Req :=
  ⟨[("x-shopify-proxy-signature", "k|/devis?customer_id=a/123")],
   "/devis?customer_id=a/123", [("customer_id", "a/123")]⟩

/-- A correctly signed list request with no `customer_id` parameter. -/
def demoReqNoCid : Req := ⟨[("x-shopify-proxy-signature", "k|/devis")], "/devis", []⟩

/-- A fully populated upstream node. -/
def demoNode : DraftOrderNode :=
  ⟨some "gid://shopify/DraftOrder/7", some "7", some "#D7", some "2024-01-01",
   some "OPEN", some "https://example.test/inv", some ⟨some ⟨"10.00", "USD"⟩⟩,
   some ⟨some [⟨⟨some "Tee", some 2, none⟩⟩]⟩⟩

/-- An upstream node with every field null. -/
def demoNodeBare : DraftOrderNode := ⟨none, none, none, none, none, none, none, none⟩

/- ----------------------------- The claims ------------------------------- -/

/-- C1: for a request carrying a (truthy) signature in either signature
header and a non-empty shared secret, `verifyProxy` returns true when the
header value equals the base64 HMAC of the raw path+query string, and also
when it equals the base64 HMAC of that string re-prefixed with `/apps`
(with exactly one `/` separator inserted when the raw path does not already
start with one). -/
theorem verifyProxy_header_match_accepts
    (hb hh : String → String → String) (secret : String) (req : Req)
    (hsec : secret ≠ "") (h : String)
    (hhdr : headerSigOf req = some h) (hne : h ≠ "")
    (hmatch : h = hb secret req.originalUrl ∨ h = hb secret (appsPrefixed req.originalUrl)) :
    verifyProxy hb hh secret req = true := by
  have hha : headerAccepts hb secret req = true := by
    rcases hmatch with hm | hm <;> subst hm <;>
      simp [headerAccepts, hhdr, hne, safeEqual_self]
  simp [verifyProxy, hsec, hha]

/-- C1 witness: both the raw-URL signature and the `/apps`-prefixed
signature verify on concrete requests. -/
theorem verifyProxy_header_match_accepts_witness :
    verifyProxy cHB cHH "k" demoReqHeader = true
  ∧ verifyProxy cHB cHH "k" demoReqApps = true :=
  ⟨verifyProxy_header_match_accepts cHB cHH "k" demoReqHeader (by decide)
      "k|/devis?customer_id=123" (by decide) (by decide) (Or.inl (by decide)),
   verifyProxy_header_match_accepts cHB cHH "k" demoReqApps (by decide)
      "k|/apps/devis?customer_id=123" (by decide) (by decide) (Or.inr (by decide))⟩

/-- C2: with a non-empty secret, when the header branch has not accepted and
a truthy legacy `signature` query parameter is present, `verifyProxy`
succeeds exactly when that parameter equals the hex HMAC of the remaining
parameters sorted by key and concatenated as `key=value` with no
separator. -/
theorem verifyProxy_legacy_iff
    (hb hh : String → String → String) (secret : String) (req : Req)
    (hsec : secret ≠ "")
    (hhdr : headerAccepts hb secret req = false)
    (s : String) (hsig : qget req.query "signature" = some s) (hne : s ≠ "") :
    verifyProxy hb hh secret req = true ↔
      s = hh secret (legacyMessage (legacyRest req.query)) := by
  unfold verifyProxy
  rw [if_neg hsec, hhdr, Bool.false_or]
  simp [legacyAccepts, hsig, hne, safeEqual_iff]

/-- C2 witness: a concrete legacy request with signature
`cHH "k" "a=1b=2"` verifies. -/
theorem verifyProxy_legacy_iff_witness :
    verifyProxy cHB cHH "k" demoReqLegacy = true :=
  (verifyProxy_legacy_iff cHB cHH "k" demoReqLegacy (by decide) (by decide)
    "k#a=1b=2" (by decide) (by decide)).mpr (by decide)

/-- C3: `verifyProxy` fails closed — it returns false whenever the shared
secret is empty; whenever neither a (truthy) signature header nor a (truthy)
legacy `signature` parameter is present; and whenever every attempted
comparison (header against both path variants, legacy against the hex
digest) is unequal. -/
theorem verifyProxy_rejects_invalid
    (hb hh : String → String → String) (secret : String) (req : Req) :
    (secret = "" → verifyProxy hb hh secret req = false)
  ∧ ((headerSigOf req = none ∨ headerSigOf req = some "") →
     (qget req.query "signature" = none ∨ qget req.query "signature" = some "") →
     verifyProxy hb hh secret req = false)
  ∧ ((∀ h, headerSigOf req = some h →
        h ≠ hb secret req.originalUrl ∧ h ≠ hb secret (appsPrefixed req.originalUrl)) →
     (∀ s, qget req.query "signature" = some s →
        s ≠ hh secret (legacyMessage (legacyRest req.query))) →
     verifyProxy hb hh secret req = false) := by
  refine ⟨fun hs => by simp [verifyProxy, hs], fun hh1 hl1 => ?_, fun hh2 hl2 => ?_⟩
  · have ha : headerAccepts hb secret req = false := by
      rcases hh1 with hx | hx <;> simp [headerAccepts, hx]
    have hl : legacyAccepts hh secret req.query = false := by
      rcases hl1 with hx | hx <;> simp [legacyAccepts, hx]
    simp [verifyProxy, ha, hl]
  · have ha : headerAccepts hb secret req = false := by
      unfold headerAccepts
      cases hv : headerSigOf req with
      | none => rfl
      | some h =>
        rcases hh2 h hv with ⟨h1, h2⟩
        by_cases he : h = ""
        · simp [he]
        · simp [he, safeEqual_ne h1, safeEqual_ne h2]
    have hl : legacyAccepts hh secret req.query = false := by
      unfold legacyAccepts
      cases hv : qget req.query "signature" with
      | none => rfl
      | some s =>
        by_cases he : s = ""
        · simp [he]
        · simp [he, safeEqual_ne (hl2 s hv)]
    simp [verifyProxy, ha, hl]

/-- C3 witness: empty secret, absent credentials, and tampered credentials
are each rejected on concrete requests. -/
theorem verifyProxy_rejects_invalid_witness :
    verifyProxy cHB cHH "" demoReqHeader = false
  ∧ verifyProxy cHB cHH "k" demoReqEmpty = false
  ∧ verifyProxy cHB cHH "k" demoReqBadSig = false :=
  ⟨(verifyProxy_rejects_invalid cHB cHH "" demoReqHeader).1 rfl,
   (verifyProxy_rejects_invalid cHB cHH "k" demoReqEmpty).2.1 (Or.inl (by decide))
     (Or.inl (by decide)),
   (verifyProxy_rejects_invalid cHB cHH "k" demoReqBadSig).2.2
     (by
       intro h heq
       rw [show headerSigOf demoReqBadSig = some "WRONG" from rfl] at heq
       injection heq with heq
       subst heq
       exact ⟨by decide, by decide⟩)
     (by
       intro s heq
       rw [show qget demoReqBadSig.query "signature" = some "NOPE" from rfl] at heq
       injection heq with heq
       subst heq
       decide)⟩

/-- The validation predicate C4 ascribes to the list route, modelled from
the spec's words: a present identifier draws 400 `bad customer_id` exactly
when it "is neither a bare numeral nor ends in a numeral after its last
`/`". Compared against the source's `gidToLegacyId`-based check. -/
def specBadCustomerId (s : String) : Bool :=
  !(isDigits s) && !(isDigits ((jsSplitSlash s).getLastD ""))

/-- C4 counterexample: the identifier `a/123` ends in a numeral after its
last `/`, so by the claim it must not be rejected as `bad customer_id`; the
code rejects it, because `gidToLegacyId` only strips a trailing segment from
identifiers that start with `gid://`. -/
theorem listDevis_slash_id_counterexample :
    specBadCustomerId "a/123" = false
  ∧ listDevis cHB cHH "k" demoReqSlashId (.ok ⟨none⟩) =
      (⟨400, .errJson "bad customer_id"⟩, false) :=
  ⟨by decide, by decide⟩

/-- C4 (amended): for every signature-verified list request, an absent or
empty (falsy) `customer_id` draws 400 `missing customer_id`; a present
non-empty identifier draws 400 `bad customer_id` exactly when
`gidToLegacyId` rejects it (it is neither a bare numeral nor a `gid://`
handle whose last `/`-segment is a numeral); and in both 400 cases the
upstream call is not reached, while a valid identifier always reaches it
with a non-400 status. -/
theorem listDevis_validation_amended
    (hb hh : String → String → String) (secret : String) (req : Req)
    (upstream : Except AdminError ListData)
    (hv : verifyProxy hb hh secret req = true) :
    ((qget req.query "customer_id" = none ∨ qget req.query "customer_id" = some "") →
       listDevis hb hh secret req upstream = (⟨400, .errJson "missing customer_id"⟩, false))
  ∧ (∀ p, qget req.query "customer_id" = some p → p ≠ "" →
       (gidToLegacyId p = none →
          listDevis hb hh secret req upstream = (⟨400, .errJson "bad customer_id"⟩, false))
     ∧ (gidToLegacyId p ≠ none →
          (listDevis hb hh secret req upstream).2 = true
        ∧ (listDevis hb hh secret req upstream).1.status ≠ 400)) := by
  constructor
  · rintro (hc | hc) <;> simp [listDevis, hv, hc]
  · intro p hp hpne
    constructor
    · intro hg
      simp [listDevis, hv, hp, hpne, hg]
    · intro hg
      rcases Option.ne_none_iff_exists'.mp hg with ⟨l, hl⟩
      cases upstream with
      | ok d => refine ⟨by simp [listDevis, hv, hp, hpne, hl], by simp [listDevis, hv, hp, hpne, hl]⟩
      | error e => refine ⟨by simp [listDevis, hv, hp, hpne, hl], by simp [listDevis, hv, hp, hpne, hl]⟩

/-- C4 witness: a signed request without `customer_id` draws
`missing customer_id`, and one with `customer_id=a/123` draws
`bad customer_id`, neither reaching upstream. -/
theorem listDevis_validation_amended_witness :
    listDevis cHB cHH "k" demoReqNoCid (.ok ⟨none⟩) =
      (⟨400, .errJson "missing customer_id"⟩, false)
  ∧ listDevis cHB cHH "k" demoReqSlashId (.ok ⟨none⟩) =
      (⟨400, .errJson "bad customer_id"⟩, false) :=
  ⟨(listDevis_validation_amended cHB cHH "k" demoReqNoCid (.ok ⟨none⟩) (by decide)).1
      (Or.inl (by decide)),
   ((listDevis_validation_amended cHB cHH "k" demoReqSlashId (.ok ⟨none⟩) (by decide)).2
      "a/123" (by decide) (by decide)).1 (by decide)⟩

/-- C5: the node-to-record mapping is a total function — it always produces
a record — and when the upstream omits the opaque handle `id` or the legacy
numeric id `legacyResourceId`, the corresponding record field is null. -/
theorem mapDraftOrderNode_null_ids (node : DraftOrderNode) (b : Bool) :
    (node.id = none → (mapDraftOrderNode node b).id = none)
  ∧ (node.legacyResourceId = none → (mapDraftOrderNode node b).legacyResourceId = none) :=
  ⟨fun h => by simp [mapDraftOrderNode, h], fun h => by simp [mapDraftOrderNode, h]⟩

/-- C5 witness: mapping the all-null node yields null identifier fields. -/
theorem mapDraftOrderNode_null_ids_witness :
    (mapDraftOrderNode demoNodeBare true).id = none
  ∧ (mapDraftOrderNode demoNodeBare true).legacyResourceId = none :=
  ⟨(mapDraftOrderNode_null_ids demoNodeBare true).1 (by decide),
   (mapDraftOrderNode_null_ids demoNodeBare true).2 (by decide)⟩

/-- C6: the mapping copies the identifier fields, name, creation timestamp,
status and invoice URL verbatim; formats `total` as
`"<amount> <currencyCode>"` when `totalPriceSet.presentmentMoney` is present
and null otherwise; with the include-items flag set (and the node carrying
its line-items connection) maps each line item to
`{title, quantity, variantTitle}` with `variantTitle` defaulted to the empty
string when absent; and omits the `lineItems` field entirely when the flag
was not set. -/
theorem mapDraftOrderNode_fields (node : DraftOrderNode) (b : Bool) :
    (mapDraftOrderNode node b).id = node.id
  ∧ (mapDraftOrderNode node b).legacyResourceId = node.legacyResourceId
  ∧ (mapDraftOrderNode node b).name = node.name
  ∧ (mapDraftOrderNode node b).createdAt = node.createdAt
  ∧ (mapDraftOrderNode node b).status = node.status
  ∧ (mapDraftOrderNode node b).invoiceUrl = node.invoiceUrl
  ∧ (∀ tps m, node.totalPriceSet = some tps → tps.presentmentMoney = some m →
       (mapDraftOrderNode node b).total = some (m.amount ++ " " ++ m.currencyCode))
  ∧ (node.totalPriceSet = none → (mapDraftOrderNode node b).total = none)
  ∧ (∀ tps, node.totalPriceSet = some tps → tps.presentmentMoney = none →
       (mapDraftOrderNode node b).total = none)
  ∧ (∀ conn, b = true → node.lineItems = some conn →
       (mapDraftOrderNode node b).lineItems =
         some ((conn.edges.getD []).map (fun e => mapLineItem e.node)))
  ∧ (∀ li, li.variantTitle = none → (mapLineItem li).variantTitle = "")
  ∧ (∀ li, (mapLineItem li).title = li.title ∧ (mapLineItem li).quantity = li.quantity)
  ∧ (b = false → (mapDraftOrderNode node b).lineItems = none) := by
  refine ⟨rfl, rfl, rfl, rfl, rfl, rfl, ?_, ?_, ?_, ?_, ?_, ?_, ?_⟩
  · intro tps m h1 h2
    simp [mapDraftOrderNode, h1, h2]
  · intro h
    simp [mapDraftOrderNode, h]
  · intro tps h1 h2
    simp [mapDraftOrderNode, h1, h2]
  · intro conn hb2 hc
    subst hb2
    simp [mapDraftOrderNode, hc]
  · intro li h
    simp [mapLineItem, jsOrElse, h]
  · intro li
    exact ⟨rfl, rfl⟩
  · intro hb2
    subst hb2
    simp [mapDraftOrderNode]

/-- C6 witness: mapping the populated demo node with and without the flag
produces the formatted total, the defaulted variant title, and field
omission respectively. -/
theorem mapDraftOrderNode_fields_witness :
    (mapDraftOrderNode demoNode true).total = some ("10.00" ++ " " ++ "USD")
  ∧ (mapDraftOrderNode demoNode true).lineItems =
      some (((some [⟨⟨some "Tee", some 2, none⟩⟩] : Option (List LineItemEdge)).getD []).map
        (fun e => mapLineItem e.node))
  ∧ (mapLineItem ⟨some "Tee", some 2, none⟩).variantTitle = ""
  ∧ (mapDraftOrderNode demoNode false).lineItems = none :=
  ⟨(mapDraftOrderNode_fields demoNode true).2.2.2.2.2.2.1 ⟨some ⟨"10.00", "USD"⟩⟩
      ⟨"10.00", "USD"⟩ (by decide) (by decide),
   (mapDraftOrderNode_fields demoNode true).2.2.2.2.2.2.2.2.2.1
      ⟨some [⟨⟨some "Tee", some 2, none⟩⟩]⟩ rfl (by decide),
   (mapDraftOrderNode_fields demoNode true).2.2.2.2.2.2.2.2.2.2.1
      ⟨some "Tee", some 2, none⟩ (by decide),
   (mapDraftOrderNode_fields demoNode false).2.2.2.2.2.2.2.2.2.2.2.2 rfl⟩

/-- C7 counterexample: an upstream HTTP 500 whose body text happens to
contain `"HTTP 404"` is answered 404 `not_found`, not 500 `server_error`,
because the route distinguishes the cases by a substring test on the thrown
error message. -/
theorem getDevisById_http404_substring_counterexample :
    getDevisById cHB cHH "k" demoReqHeader "5"
      (fun _ => .error (.httpError 500 "see HTTP 404 upstream")) =
      (⟨404, .errJson "not_found"⟩, true) := by
  decide

/-- C7 (amended): for every signature-verified single-quote request, a null
upstream node is answered 404 `not_found` (independent of the include-items
flag); an upstream HTTP 404 failure is likewise answered 404; and every
other upstream failure is answered 500 `server_error` unless its composed
error message (`[AdminAPI] HTTP <status>: <body>`) contains the substring
`"HTTP 404"`, in which case it too is answered 404. -/
theorem getDevisById_errors_amended
    (hb hh : String → String → String) (secret : String) (req : Req)
    (rawId : String) (upstream : String → Except AdminError OneData)
    (hv : verifyProxy hb hh secret req = true) :
    (∀ d, upstream (oneQuoteUpstreamId rawId) = .ok d → d.draftOrder = none →
       getDevisById hb hh secret req rawId upstream = (⟨404, .errJson "not_found"⟩, true))
  ∧ (∀ b, upstream (oneQuoteUpstreamId rawId) = .error (.httpError 404 b) →
       getDevisById hb hh secret req rawId upstream = (⟨404, .errJson "not_found"⟩, true))
  ∧ (∀ e, upstream (oneQuoteUpstreamId rawId) = .error e →
       (jsIncludes (AdminError.message e) "HTTP 404" = false →
          getDevisById hb hh secret req rawId upstream = (⟨500, .errJson "server_error"⟩, true))
     ∧ (jsIncludes (AdminError.message e) "HTTP 404" = true →
          getDevisById hb hh secret req rawId upstream = (⟨404, .errJson "not_found"⟩, true))) := by
  refine ⟨?_, ?_, ?_⟩
  · intro d hu hd
    simp [getDevisById, hv, hu, hd]
  · intro b hu
    simp [getDevisById, hv, hu, http404_message_includes b]
  · intro e hu
    exact ⟨fun hi => by simp [getDevisById, hv, hu, hi],
           fun hi => by simp [getDevisById, hv, hu, hi]⟩

/-- C7 witness: null node → 404; upstream HTTP 404 → 404; upstream HTTP 500
with an innocent body → 500. -/
theorem getDevisById_errors_amended_witness :
    getDevisById cHB cHH "k" demoReqHeader "5" (fun _ => .ok ⟨none⟩) =
      (⟨404, .errJson "not_found"⟩, true)
  ∧ getDevisById cHB cHH "k" demoReqHeader "5" (fun _ => .error (.httpError 404 "gone")) =
      (⟨404, .errJson "not_found"⟩, true)
  ∧ getDevisById cHB cHH "k" demoReqHeader "5" (fun _ => .error (.httpError 500 "boom")) =
      (⟨500, .errJson "server_error"⟩, true) :=
  ⟨(getDevisById_errors_amended cHB cHH "k" demoReqHeader "5" (fun _ => .ok ⟨none⟩)
      (by decide)).1 ⟨none⟩ rfl rfl,
   (getDevisById_errors_amended cHB cHH "k" demoReqHeader "5"
      (fun _ => .error (.httpError 404 "gone")) (by decide)).2.1 "gone" rfl,
   ((getDevisById_errors_amended cHB cHH "k" demoReqHeader "5"
      (fun _ => .error (.httpError 500 "boom")) (by decide)).2.2
      (.httpError 500 "boom") rfl).1 (by decide)⟩

/-- C8: on either operation, a request failing signature verification is
answered 401 `invalid_signature` and execution never reaches the upstream
call. -/
theorem handlers_unverified_401
    (hb hh : String → String → String) (secret : String) (req : Req)
    (rawId : String) (lu : Except AdminError ListData)
    (ou : String → Except AdminError OneData)
    (hv : verifyProxy hb hh secret req = false) :
    listDevis hb hh secret req lu = (⟨401, .errJson "invalid_signature"⟩, false)
  ∧ getDevisById hb hh secret req rawId ou = (⟨401, .errJson "invalid_signature"⟩, false) :=
  ⟨by simp [listDevis, hv], by simp [getDevisById, hv]⟩

/-- C8 witness: a tampered request is answered 401 by both routes without an
upstream call. -/
theorem handlers_unverified_401_witness :
    listDevis cHB cHH "k" demoReqBadSig (.ok ⟨none⟩) =
      (⟨401, .errJson "invalid_signature"⟩, false)
  ∧ getDevisById cHB cHH "k" demoReqBadSig "7" (fun _ => .ok ⟨none⟩) =
      (⟨401, .errJson "invalid_signature"⟩, false) :=
  handlers_unverified_401 cHB cHH "k" demoReqBadSig "7" (.ok ⟨none⟩)
    (fun _ => .ok ⟨none⟩) (by decide)

/-- C9: the constant-time comparison is total — the case in which the
underlying primitive raises (buffers of different byte length) evaluates to
false rather than propagating, and consequently `verifyProxy` always
returns a boolean. -/
theorem safeEqual_total_on_mismatch (a b : String) :
    (a.utf8ByteSize ≠ b.utf8ByteSize → safeEqual a b = false)
  ∧ (∀ (hb hh : String → String → String) (secret : String) (req : Req),
       verifyProxy hb hh secret req = true ∨ verifyProxy hb hh secret req = false) :=
  ⟨fun h => by simp [safeEqual, h],
   fun hb hh secret req => Bool.eq_false_or_eq_true (verifyProxy hb hh secret req)⟩

/-- C9 witness: a one-byte and a two-byte string compare to false. -/
theorem safeEqual_total_on_mismatch_witness : safeEqual "a" "bc" = false :=
  (safeEqual_total_on_mismatch "a" "bc").1 (by decide)

/-- C10: the single-quote route never answers 400 — a bare numeral id is
normalized to `gid://shopify/DraftOrder/<numeral>`, an identifier yielding
no legacy id is passed upstream verbatim, and every response of the route
has a status other than 400. -/
theorem getDevisById_never_400
    (hb hh : String → String → String) (secret : String) (req : Req)
    (rawId : String) (upstream : String → Except AdminError OneData) :
    (isDigits rawId = true → oneQuoteUpstreamId rawId = "gid://shopify/DraftOrder/" ++ rawId)
  ∧ (gidToLegacyId rawId = none → oneQuoteUpstreamId rawId = rawId)
  ∧ (getDevisById hb hh secret req rawId upstream).1.status ≠ 400 := by
  refine ⟨fun hd => ?_, fun hg => by simp [oneQuoteUpstreamId, hg], ?_⟩
  · simp [oneQuoteUpstreamId, gidToLegacyId_digits rawId hd, digits_not_gid rawId hd]
  · unfold getDevisById
    by_cases hv : verifyProxy hb hh secret req = false
    · simp [hv]
    · simp only [hv, if_neg, if_false]
      cases hu : upstream (oneQuoteUpstreamId rawId) with
      | ok d =>
        cases hd : d.draftOrder <;> simp [hu, hd]
      | error e =>
        by_cases hi : jsIncludes (AdminError.message e) "HTTP 404" = true <;>
          simp [hu, hi]

/-- C10 witness: `42` is normalized, `abc` is passed verbatim, and a
concrete verified request is not answered 400. -/
theorem getDevisById_never_400_witness :
    oneQuoteUpstreamId "42" = "gid://shopify/DraftOrder/" ++ "42"
  ∧ oneQuoteUpstreamId "abc" = "abc"
  ∧ (getDevisById cHB cHH "k" demoReqHeader "42" (fun _ => .ok ⟨none⟩)).1.status ≠ 400 :=
  ⟨(getDevisById_never_400 cHB cHH "k" demoReqHeader "42" (fun _ => .ok ⟨none⟩)).1 (by decide),
   (getDevisById_never_400 cHB cHH "k" demoReqHeader "abc" (fun _ => .ok ⟨none⟩)).2.1 (by decide),
   (getDevisById_never_400 cHB cHH "k" demoReqHeader "42" (fun _ => .ok ⟨none⟩)).2.2⟩
